import Mathlib

/-!
# Verification of the CGW-to-Anki scraper core (`src/main.py`)

A shallow embedding of the content-extraction and diff logic of the
scraper.  HTML documents (parsed by BeautifulSoup in the source) are
modelled as element trees (`Node`); the BeautifulSoup queries the code
performs (`find`, `find_all`, `get_text`, `decompose`) are modelled as
pure functions on those trees.  The per-page extraction
(`parse_point_page`), the per-item subroutine
(`extract_and_decompose_li_components`) and the diff engine
(`diff_existing_and_scraped`) are translated line by line from
`src/main.py`.  The pypinyin library (third-party) is modelled as an
abstract parameter.
-/

namespace CgwScraper

/-- The three genanki models defined in `src/templates.py`
(`TRANSLATION_MODEL`, `VALID_EXAMPLE_MODEL`, `INVALID_EXAMPLE_MODEL`);
only their identity matters to the core, so they are an enum here. -/
inductive Model where
  | translation
  | validExample
  | invalidExample
deriving DecidableEq, Repr

/-- The `CardContent` TypedDict of `src/main.py` (lines 47-55).
The source dict key `structure` is a Lean keyword, hence the guillemets. -/
structure CardContent where
  model : Model
  hanzi : String
  pinyin : String
  translation : String
  notes : String
  «structure» : String
  url : String
  article_title : String
deriving DecidableEq, Repr

/-- The `DeckDiffStats` TypedDict of `src/main.py` (lines 56-59). -/
structure DeckDiffStats where
  new : Nat
  update : Nat
  skipped : Nat
deriving DecidableEq, Repr

/-- One value of the mapping returned by `get_existing_cards_from_deck`
(`src/main.py` lines 310-313): the snapshot `{pinyin, translation}` kept
for an existing card. -/
structure ExistingSnap where
  pinyin : String
  translation : String
deriving DecidableEq, Repr

/-- The `existing_cards` dict (`hanzi -> {pinyin, translation}`), modelled
as a lookup function: `existing h = none` models `h not in existing_cards`. -/
def ExistingCards : Type := String → Option ExistingSnap

/-- Python `str.strip()`: drop leading and trailing whitespace characters
(defined on the character list so the kernel can evaluate it; Lean's
`Char.isWhitespace` covers the ASCII whitespace Python strips). -/
def pyStrip (s : String) : String :=
  ⟨((s.data.dropWhile Char.isWhitespace).reverse.dropWhile
      Char.isWhitespace).reverse⟩

/-- Python `s.replace(' ', '')`: every space character removed (replacing
each occurrence of the one-character pattern by the empty string deletes
exactly the spaces). -/
def removeSpaces (s : String) : String := ⟨s.data.filter (fun c => c ≠ ' ')⟩

/-- Python `''.join(xs)`. -/
def joinAll (xs : List String) : String := xs.foldl (fun a b => a ++ b) ""

/-- Python `sep.join(xs)`. -/
def joinSep (sep : String) : List String → String
  | [] => ""
  | [x] => x
  | x :: y :: xs => x ++ sep ++ joinSep sep (y :: xs)

/-- `diff_existing_and_scraped` (`src/main.py` lines 320-338): one pass over
the scraped cards, appending each card classified new or update to
`cards_to_export` and bumping the matching counter.  The Python `for` loop
is rendered as recursion on the scraped list; since list append preserves
order and the counters are commutative sums, processing the head first and
consing onto the result of the rest yields the same export list and stats. -/
def diff_existing_and_scraped (existing : ExistingCards) :
    List CardContent → List CardContent × DeckDiffStats
  | [] => ([], ⟨0, 0, 0⟩)
  | card :: rest =>
    let (exports, stats) := diff_existing_and_scraped existing rest
    match existing card.hanzi with
    | none => (card :: exports, { stats with new := stats.new + 1 })
    | some ex =>
      -- strip whitespace to avoid false positives (main.py line 331)
      if pyStrip card.translation ≠ pyStrip ex.translation ∨
          pyStrip card.pinyin ≠ pyStrip ex.pinyin then
        (card :: exports, { stats with update := stats.update + 1 })
      else
        (exports, { stats with skipped := stats.skipped + 1 })

/-- The classification of one card by the loop body of
`diff_existing_and_scraped`: `new` when its hanzi is not a key of the
existing mapping, `update` when it is and a trimmed field differs,
`skipped` otherwise. -/
inductive DiffClass where
  | new
  | update
  | skipped
deriving DecidableEq, Repr

/-- The branch taken by the loop body of `diff_existing_and_scraped` for
one card (`src/main.py` lines 326-337). -/
def classify (existing : ExistingCards) (card : CardContent) : DiffClass :=
  match existing card.hanzi with
  | none => .new
  | some ex =>
    if pyStrip card.translation ≠ pyStrip ex.translation ∨
        pyStrip card.pinyin ≠ pyStrip ex.pinyin then
      .update
    else
      .skipped

/-! ## HTML tree model

The source hands raw page markup to BeautifulSoup and then works on the
parsed element tree.  HTML parsing itself is third-party; the embedding
starts from the parsed tree: a node is a text run or an element with a
tag name, a `class` attribute list and children. -/

/-- A parsed HTML node (the BeautifulSoup tree the source traverses). -/
inductive Node where
  | text (s : String)
  | elem (tag : String) (classes : List String) (children : List Node)
deriving Repr

mutual

/-- All text-run descendants of a node in document order
(BeautifulSoup's `.strings`, the basis of `get_text`). -/
def Node.strings : Node → List String
  | .text s => [s]
  | .elem _ _ children => stringsList children

/-- `Node.strings` over a forest, in document order. -/
def stringsList : List Node → List String
  | [] => []
  | n :: ns => n.strings ++ stringsList ns

end

/-- `tag.get_text()`: all text runs joined with no separator. -/
def rawText (n : Node) : String := joinAll n.strings

/-- `tag.get_text(strip=True)`: each text run stripped, joined with no
separator (Python `str.strip` semantics: leading and
trailing whitespace). -/
def stripText (n : Node) : String := joinAll (n.strings.map pyStrip)

/-- `get_text(strip=True)` of a forest (used for the remaining list-item
content after span removal). -/
def stripTextList (ns : List Node) : String :=
  joinAll ((stringsList ns).map pyStrip)

/-- Result of searching one node for a span: the node is itself the span,
the span was found among its descendants (and removed), or no match. -/
inductive SpanSearch where
  | self (span : Node)
  | inside (span : Node) (rest : Node)
  | notFound

mutual

/-- Search one node, depth-first pre-order, for the first
`<span class=c>` descendant-or-self (BeautifulSoup
`find("span", class_=c)` order). -/
def searchNode (c : String) : Node → SpanSearch
  | .text _ => .notFound
  | .elem t cls children =>
    if t = "span" ∧ c ∈ cls then .self (.elem t cls children)
    else
      match searchList c children with
      | (some sp, children') => .inside sp (.elem t cls children')
      | (none, _) => .notFound

/-- Search a forest for the first matching span in document order,
returning the span (if any) and the forest with it removed. -/
def searchList (c : String) : List Node → Option Node × List Node
  | [] => (none, [])
  | n :: ns =>
    match searchNode c n with
    | .self sp => (some sp, ns)
    | .inside sp n' => (some sp, n' :: ns)
    | .notFound =>
      let p := searchList c ns
      (p.1, n :: p.2)

end

/-- `li.find("span", class_=c)` followed by `tag.decompose()` on a match
(`maybe_get_tag_text_and_decompose`, `src/main.py` lines 265-270, which
reads the tag's text before destroying it): the first matching span and
the tree with it removed.  The source finds the three spans before
decomposing any of them; as long as none of the searched spans is nested
inside another (never the case for the wiki's flat `pinyin`/`trans`/`expl`
spans), find-all-then-decompose and this sequential extract-and-consume
agree. -/
def extractSpan (c : String) (ns : List Node) : Option Node × List Node :=
  searchList c ns

/-! ## Content extractor (`parse_point_page` and helpers) -/

/-- `extract_and_decompose_li_components` (`src/main.py` lines 251-262):
remove the `pinyin`, `trans` and `expl` spans in turn, capturing each
one's `get_text()` when present; the remaining content's stripped text
with every space removed is the hanzi.  The hanzi component is always a
string (possibly empty); the other three are `none` when the span is
absent. -/
def extract_and_decompose_li_components (ns : List Node) :
    String × Option String × Option String × Option String :=
  let pp := extractSpan "pinyin" ns
  let tp := extractSpan "trans" pp.2
  let ep := extractSpan "expl" tp.2
  let hanzi_text := removeSpaces (stripTextList ep.2)
  (hanzi_text, pp.1.map rawText, tp.1.map rawText, ep.1.map rawText)

/-- `maybe_prepend_speaker_text` (`src/main.py` lines 273-274). -/
def maybe_prepend_speaker_text (maybe_text : Option String)
    (speaker_text : String) : Option String :=
  match maybe_text with
  | some t => some (speaker_text ++ " " ++ t)
  | none => none

/-- An `<li>` item of an example group: its `class` attribute and child
nodes. -/
structure Li where
  classes : List String
  children : List Node
deriving Repr

/-- One `div.liju` example group as the code reads it: the text of the
nearest preceding `div.jiegou` (`find_previous`; `none` when the page has
none before the group), the `class` list of the group's `ul`, and the
`ul`'s `li` items in document order.  (The code crashes on a `liju` block
with no `ul` at all — `div.find("ul")` returning `None` — so the model,
like every page the claims concern, assumes the `ul` is present.) -/
structure ExampleGroup where
  jiegou : Option String
  ulClasses : List String
  lis : List Li
deriving Repr

/-- One fetched content page as `parse_point_page` consumes it: its url,
the stripped text of the first `h1` (`soup.find("h1")`; `none` when the
page has no `h1`), and the `div.liju` blocks in document order. -/
structure PointPage where
  url : String
  h1 : Option String
  groups : List ExampleGroup
deriving Repr

/-- The third-party pypinyin call
`[item[0] for item in pinyin(h, style=Style.TONE)]`: the per-word
tone-marked first readings of a hanzi string, modelled abstractly. -/
def PinyinFn : Type := String → List String

/-- The fallback `''.join(...)` over the pypinyin readings
(`src/main.py` lines 204 and 238): readings concatenated with no
separator. -/
def synthesizePinyin (pin : PinyinFn) (hanzi : String) : String :=
  joinAll (pin hanzi)

/-- The diagnostic printed for a dialog line with no speaker span
(`src/main.py` line 168). -/
def speakerWarning (url : String) : String :=
  "Malformed dialog example on page " ++ url ++
    " does not have required speaker tag"

/-- The body of the dialog loop for one `li` (`src/main.py` lines
164-183): find and decompose the `speaker` span (skipping the line when
absent — `speaker_tag is None`), read its `get_text(strip=True)`, extract
the remaining components, and prefix each with the speaker text.  The
hanzi component is a string, so `maybe_prepend_speaker_text` always
prefixes it; the second `speaker_text is None` check (line 174) can never
fire since `get_text` returns a string, and is therefore not modelled. -/
def dialogLine (li : Li) :
    Option (String × Option String × Option String × Option String) :=
  match extractSpan "speaker" li.children with
  | (none, _) => none
  | (some speaker_tag, rest) =>
    let speaker_text := stripText speaker_tag
    let c := extract_and_decompose_li_components rest
    some (speaker_text ++ " " ++ c.1,
          maybe_prepend_speaker_text c.2.1 speaker_text,
          maybe_prepend_speaker_text c.2.2.1 speaker_text,
          maybe_prepend_speaker_text c.2.2.2 speaker_text)

/-- The four per-line accumulators of the dialog loop (`lines_hanzi`,
`lines_pinyin`, `lines_trans`, `lines_expl`) plus the diagnostics printed
while filling them. -/
structure DialogAcc where
  hs : List String
  ps : List (Option String)
  ts : List (Option String)
  es : List (Option String)
  warns : List String
deriving Repr

/-- The dialog loop over a group's `li` items (`src/main.py` lines
164-183): each line with a speaker span appends to the four accumulators;
a line with none prints `speakerWarning` and is skipped. -/
def processDialogLis (url : String) : List Li → DialogAcc
  | [] => ⟨[], [], [], [], []⟩
  | li :: rest =>
    let acc := processDialogLis url rest
    match dialogLine li with
    | none => { acc with warns := speakerWarning url :: acc.warns }
    | some l => ⟨l.1 :: acc.hs, l.2.1 :: acc.ps, l.2.2.1 :: acc.ts,
                 l.2.2.2 :: acc.es, acc.warns⟩

/-- Python `filter(None, xs)` over the accumulated optional lines: keeps
the truthy elements, i.e. drops both `None` and the empty string. -/
def filterTruthy (xs : List (Option String)) : List String :=
  xs.filterMap (fun x =>
    match x with
    | none => none
    | some s => if s = "" then none else some s)

/-- `"<br>".join(xs)`. -/
def intercalateBr (xs : List String) : String := joinSep "<br>" xs

/-- The standalone branch of the per-item loop (`src/main.py` lines
216-247): extract the components, pick the model from the `o`/`x` marker
classes (`o` first, so it wins when both are present), and emit.  The
`hanzi_text is None` guard at line 230 can never fire —
`extract_and_decompose_li_components` returns a string for hanzi — so
every standalone item is emitted; the `x or ""` coalescing of line 241 is
the identity on the strings it receives and `.getD ""` on the optional
translation and notes. -/
def parseStandaloneLi (pin : PinyinFn) (url title structure_text : String)
    (li : Li) : CardContent :=
  let c := extract_and_decompose_li_components li.children
  let model : Model :=
    if "o" ∈ li.classes then .validExample
    else if "x" ∈ li.classes then .invalidExample
    else .translation
  let pinyin_text :=
    match c.2.1 with
    | none => synthesizePinyin pin c.1
    | some s => s
  { model := model, hanzi := c.1, pinyin := pinyin_text,
    translation := (c.2.2.1).getD "", notes := (c.2.2.2).getD "",
    «structure» := structure_text, url := url, article_title := title }

/-- The per-group body of `parse_point_page` (`src/main.py` lines
147-247), returning the emitted cards and the printed diagnostics.  On
the dialog branch the joined `hanzi_text` and `pinyin_text` are strings,
so the `is None` guards at lines 196 and 203 can never fire: exactly one
record is emitted per dialog group, with no pinyin synthesis, the empty
string standing in when no line contributed a value. -/
def parseGroup (pin : PinyinFn) (url title : String) (g : ExampleGroup) :
    List CardContent × List String :=
  let structure_text := g.jiegou.getD ""
  if "dialog" ∈ g.ulClasses then
    let acc := processDialogLis url g.lis
    let hanzi_text := pyStrip (intercalateBr acc.hs)
    let pinyin_text := intercalateBr (filterTruthy acc.ps)
    let trans_text := intercalateBr (filterTruthy acc.ts)
    let expl_text := intercalateBr (filterTruthy acc.es)
    ([{ model := .translation, hanzi := hanzi_text, pinyin := pinyin_text,
        translation := trans_text, notes := expl_text,
        «structure» := structure_text, url := url, article_title := title }],
     acc.warns)
  else
    (g.lis.map (parseStandaloneLi pin url title structure_text), [])

/-- `parse_point_page` (`src/main.py` lines 139-248), returning the parsed
cards and the printed diagnostics.  `soup.find("h1")` yields `None` on a
page with no `h1`, so `.get_text(strip=True)` raises `AttributeError`
there — modelled as `Except.error`; otherwise every `div.liju` group is
processed in order. -/
def parse_point_page (pin : PinyinFn) (page : PointPage) :
    Except String (List CardContent × List String) :=
  match page.h1 with
  | none => .error "AttributeError: NoneType has no attribute get_text"
  | some title =>
    .ok (page.groups.foldr
      (fun g r =>
        let p := parseGroup pin page.url title g
        (p.1 ++ r.1, p.2 ++ r.2))
      ([], []))

/-! ## Concrete inputs used by witnesses and counterexamples -/

/-- `<span class=c>t</span>`. -/
def spanOf (c : String) (t : String) : Node := .elem "span" [c] [.text t]

/-- A pinyin function used where the value is irrelevant. -/
def noPinyin : PinyinFn := fun _ => []

/-- A list item whose entire visible content sits in its pinyin span:
`<li><span class="pinyin">wǒ</span></li>`, so the remaining text after
span removal is empty. -/
def emptyHanziLi : Li := { classes := [], children := [spanOf "pinyin" "wǒ"] }

/-- A standalone example group holding only `emptyHanziLi`. -/
def emptyHanziGroup : ExampleGroup :=
  { jiegou := none, ulClasses := [], lis := [emptyHanziLi] }

/-- A content page whose single example has empty remaining hanzi text. -/
def emptyHanziPage : PointPage :=
  { url := "u", h1 := some "T", groups := [emptyHanziGroup] }

/-- A dialog line with a speaker span but no pinyin span:
`<li><span class="speaker">A:</span>你好</li>`. -/
def noPinyinDialogLi : Li :=
  { classes := [], children := [spanOf "speaker" "A:", .text "你好"] }

/-- A dialog group none of whose lines carries a pinyin span. -/
def noPinyinDialogGroup : ExampleGroup :=
  { jiegou := none, ulClasses := ["dialog"], lis := [noPinyinDialogLi] }

/-- A content page holding only `noPinyinDialogGroup`. -/
def noPinyinDialogPage : PointPage :=
  { url := "u", h1 := some "T", groups := [noPinyinDialogGroup] }

/-- An empty existing-card mapping (no deck being updated). -/
def noExisting : ExistingCards := fun _ => none

/-- A scraped card with hanzi `你好`. -/
def cardA : CardContent :=
  { model := .translation, hanzi := "你好", pinyin := "nǐhǎo",
    translation := "Hello", notes := "first", «structure» := "",
    url := "u1", article_title := "t1" }

/-- A second scraped card with the same hanzi as `cardA` but a different
translation. -/
def cardB : CardContent :=
  { model := .translation, hanzi := "你好", pinyin := "nǐhǎo",
    translation := "Hi there", notes := "second", «structure» := "",
    url := "u2", article_title := "t2" }

/-- A content page with no example groups and no `h1` heading. -/
def noH1Page : PointPage := { url := "u", h1 := none, groups := [] }

/-- An existing deck holding one snapshot for `你好`, its pinyin with a
trailing space. -/
def oneExisting : ExistingCards := fun h =>
  if h = "你好" then some { pinyin := "nǐhǎo ", translation := "Hello" } else none

/-- A scraped card whose pinyin and translation differ from the
`oneExisting` snapshot only in leading/trailing whitespace. -/
def cardTrimSame : CardContent :=
  { model := .translation, hanzi := "你好", pinyin := "nǐhǎo",
    translation := " Hello", notes := "", «structure» := "",
    url := "u", article_title := "t" }

/-- A scraped card whose pinyin differs from the `oneExisting` snapshot in
internal whitespace only. -/
def cardInnerSpace : CardContent :=
  { model := .translation, hanzi := "你好", pinyin := "nǐ hǎo",
    translation := "Hello", notes := "", «structure» := "",
    url := "u", article_title := "t" }

/-- A card agreeing with `cardA` on hanzi, pinyin and translation but
differing in model, notes, structure, url and article title. -/
def cardAOther : CardContent :=
  { model := .validExample, hanzi := "你好", pinyin := "nǐhǎo",
    translation := "Hello", notes := "changed notes", «structure» := "S",
    url := "other-url", article_title := "other-title" }

/-- A well-formed dialog line: speaker `A:`, pinyin and translation
spans, hanzi `你好`. -/
def dialogLiA : Li :=
  { classes := [],
    children := [spanOf "speaker" "A:", spanOf "pinyin" "nǐ hǎo",
                 spanOf "trans" "Hello", .text "你好"] }

/-- A second well-formed dialog line: speaker `B:`, hanzi `好`. -/
def dialogLiB : Li :=
  { classes := [],
    children := [spanOf "speaker" "B:", spanOf "pinyin" "hǎo",
                 spanOf "trans" "Hi", .text "好"] }

/-- A two-line dialog example group. -/
def dialogGroup : ExampleGroup :=
  { jiegou := some "Dialog Struct", ulClasses := ["dialog"],
    lis := [dialogLiA, dialogLiB] }

/-- A malformed dialog line with no speaker span. -/
def noSpeakerLi : Li := { classes := [], children := [.text "谁说的"] }

/-- A standalone list item carrying both the `o` and the `x` marker
classes. -/
def bothMarksLi : Li := { classes := ["o", "x"], children := [.text "好"] }

/-! ## Helper lemmas -/

/-- One step of the diff loop, expressed through `classify`. -/
theorem diff_cons (existing : ExistingCards) (card : CardContent)
    (rest : List CardContent) :
    diff_existing_and_scraped existing (card :: rest) =
      (let p := diff_existing_and_scraped existing rest
       match classify existing card with
       | .new => (card :: p.1, { p.2 with new := p.2.new + 1 })
       | .update => (card :: p.1, { p.2 with update := p.2.update + 1 })
       | .skipped => (p.1, { p.2 with skipped := p.2.skipped + 1 })) := by
  simp only [diff_existing_and_scraped, classify]
  cases h : existing card.hanzi with
  | none => rfl
  | some ex =>
    by_cases hne : pyStrip card.translation ≠ pyStrip ex.translation ∨
        pyStrip card.pinyin ≠ pyStrip ex.pinyin
    · simp [hne]
    · simp [hne]

/-- The stats returned by the diff are the per-class counts of `classify`. -/
theorem diff_stats_eq_counts (existing : ExistingCards)
    (scraped : List CardContent) :
    (diff_existing_and_scraped existing scraped).2 =
      ⟨scraped.countP (fun c => classify existing c == .new),
       scraped.countP (fun c => classify existing c == .update),
       scraped.countP (fun c => classify existing c == .skipped)⟩ := by
  induction scraped with
  | nil => rfl
  | cons card rest ih =>
    rw [diff_cons]
    simp only [List.countP_cons]
    cases hc : classify existing card <;> simp [hc, ih]

/-- The dialog loop distributes over list append, field by field. -/
theorem processDialogLis_append (url : String) (xs ys : List Li) :
    processDialogLis url (xs ++ ys) =
      ⟨(processDialogLis url xs).hs ++ (processDialogLis url ys).hs,
       (processDialogLis url xs).ps ++ (processDialogLis url ys).ps,
       (processDialogLis url xs).ts ++ (processDialogLis url ys).ts,
       (processDialogLis url xs).es ++ (processDialogLis url ys).es,
       (processDialogLis url xs).warns ++ (processDialogLis url ys).warns⟩ := by
  induction xs with
  | nil => rfl
  | cons li rest ih =>
    simp only [List.cons_append, processDialogLis, List.append_eq, ih]
    cases dialogLine li <;> simp

/-- The four line accumulators of the dialog loop are the in-order
projections of `dialogLine` over the retained lines. -/
theorem processDialogLis_eq_filterMap (url : String) (lis : List Li) :
    (processDialogLis url lis).hs =
        (lis.filterMap dialogLine).map (fun l => l.1) ∧
      (processDialogLis url lis).ps =
        (lis.filterMap dialogLine).map (fun l => l.2.1) ∧
      (processDialogLis url lis).ts =
        (lis.filterMap dialogLine).map (fun l => l.2.2.1) ∧
      (processDialogLis url lis).es =
        (lis.filterMap dialogLine).map (fun l => l.2.2.2) := by
  induction lis with
  | nil => exact ⟨rfl, rfl, rfl, rfl⟩
  | cons li rest ih =>
    obtain ⟨ih1, ih2, ih3, ih4⟩ := ih
    simp only [processDialogLis, List.filterMap_cons]
    cases dialogLine li <;>
      simp [ih1, ih2, ih3, ih4, processDialogLis]

/-- A line whose speaker search comes up empty is dropped by
`dialogLine`. -/
theorem dialogLine_eq_none (li : Li)
    (h : (extractSpan "speaker" li.children).1 = none) :
    dialogLine li = none := by
  unfold dialogLine
  cases hp : extractSpan "speaker" li.children with
  | mk o rest =>
    rw [hp] at h
    simp at h
    subst h
    rfl

/-- Each card satisfies exactly one of the three class predicates, so the
three counts partition the list. -/
theorem classify_counts_sum (existing : ExistingCards)
    (scraped : List CardContent) :
    scraped.countP (fun c => classify existing c == DiffClass.new) +
        scraped.countP (fun c => classify existing c == DiffClass.update) +
        scraped.countP (fun c => classify existing c == DiffClass.skipped) =
      scraped.length := by
  induction scraped with
  | nil => rfl
  | cons card rest ih =>
    simp only [List.countP_cons, List.length_cons]
    cases hc : classify existing card <;> simp [hc] <;> omega

/-! ## Claims -/

/-- C1: the claim says a list item whose remaining text after removing
the three spans is empty is skipped with a warning and never emitted with
empty hanzi.  The code checks `hanzi_text is None` (main.py line 230),
but `extract_and_decompose_li_components` always returns a string for
hanzi, so the guard is unreachable: on the page whose only example is
`<li><span class="pinyin">wǒ</span></li>` a record with `hanzi = ""` is
emitted, with no warning. -/
theorem C1_empty_hanzi_emitted (pin : PinyinFn) :
    parse_point_page pin emptyHanziPage =
      .ok ([{ model := .translation, hanzi := "", pinyin := "wǒ",
              translation := "", notes := "", «structure» := "",
              url := "u", article_title := "T" }], []) := rfl

/-- C2: the diff assigns every scraped card exactly one classification —
its counters are the per-class counts of `classify` over the scraped
list — and the three counters sum to the length of the list. -/
theorem C2_diff_total_classification (existing : ExistingCards)
    (scraped : List CardContent) :
    ((diff_existing_and_scraped existing scraped).2.new =
        scraped.countP (fun c => classify existing c == .new) ∧
      (diff_existing_and_scraped existing scraped).2.update =
        scraped.countP (fun c => classify existing c == .update) ∧
      (diff_existing_and_scraped existing scraped).2.skipped =
        scraped.countP (fun c => classify existing c == .skipped)) ∧
    (diff_existing_and_scraped existing scraped).2.new +
        (diff_existing_and_scraped existing scraped).2.update +
        (diff_existing_and_scraped existing scraped).2.skipped =
      scraped.length := by
  have h := diff_stats_eq_counts existing scraped
  refine ⟨⟨by rw [h], by rw [h], by rw [h]⟩, ?_⟩
  rw [h]
  exact classify_counts_sum existing scraped

/-- C3: the claim says an absent pinyin is synthesized from the hanzi on
both paths, in particular for a dialog none of whose lines carries a
pinyin span.  On the dialog path `pinyin_text` is
`"<br>".join(filter(None, lines_pinyin))` — always a string — so the
`pinyin_text is None` guard (main.py line 203) is unreachable and the
dialog `<li><span class="speaker">A:</span>你好</li>` is emitted with
`pinyin = ""`, not with synthesized pinyin, whatever the pypinyin
readings would be. -/
theorem C3_dialog_pinyin_not_synthesized (pin : PinyinFn) :
    parse_point_page pin noPinyinDialogPage =
      .ok ([{ model := .translation, hanzi := "A: 你好", pinyin := "",
              translation := "", notes := "", «structure» := "",
              url := "u", article_title := "T" }], []) := rfl

/-- C4 counterexample: with an empty existing mapping and two scraped
records sharing hanzi `你好`, the export list still contains the first
record and carries two records under that hanzi — the second does not
replace the first. -/
theorem C4_counterexample :
    (diff_existing_and_scraped noExisting [cardA, cardB]).1 =
        [cardA, cardB] ∧
      ((diff_existing_and_scraped noExisting [cardA, cardB]).1.filter
          (fun c => c.hanzi == "你好")).length = 2 ∧
      cardA ≠ cardB := by decide

/-- C4 (amended): `diff_existing_and_scraped` performs no per-hanzi
deduplication — the export list is exactly the scraped list, in input
order, restricted to the cards not classified `skipped`, so two records
with identical hanzi can both appear; any overwrite under the shared key
happens downstream of the diff (deck import by hanzi-derived guid), not
here. -/
theorem C4_export_keeps_duplicates (existing : ExistingCards)
    (scraped : List CardContent) :
    (diff_existing_and_scraped existing scraped).1 =
      scraped.filter (fun c => classify existing c != .skipped) := by
  induction scraped with
  | nil => rfl
  | cons card rest ih =>
    rw [diff_cons]
    simp only [List.filter_cons]
    cases hc : classify existing card <;> simp [hc, ih]

/-- C5 counterexample: on a page with zero example groups and no `h1`
heading, `parse_point_page` does not return the empty sequence — it
raises (`soup.find("h1")` is `None` and `.get_text` fails). -/
theorem C5_counterexample :
    parse_point_page noPinyin noH1Page =
      .error "AttributeError: NoneType has no attribute get_text" := rfl

/-- C5 (amended): for every content page with zero example-group blocks
that does have a top-level heading, `parse_point_page` returns the empty
sequence (and no diagnostics) without error; a page lacking the heading
raises instead. -/
theorem C5_zero_groups_ok (pin : PinyinFn) (url title : String) :
    parse_point_page pin { url := url, h1 := some title, groups := [] } =
      .ok ([], []) := rfl

/-- C6: for a card whose hanzi is a key of the existing mapping, pinyin
and translation values equal after stripping leading/trailing whitespace
give `skipped` (never `update`), while any difference surviving the strip
— in particular an internal-whitespace difference — gives `update`. -/
theorem C6_trim_insensitive_diff (existing : ExistingCards)
    (card : CardContent) (snap : ExistingSnap)
    (h : existing card.hanzi = some snap) :
    (pyStrip card.pinyin = pyStrip snap.pinyin ∧
        pyStrip card.translation = pyStrip snap.translation →
      diff_existing_and_scraped existing [card] = ([], ⟨0, 0, 1⟩)) ∧
    (pyStrip card.pinyin ≠ pyStrip snap.pinyin ∨
        pyStrip card.translation ≠ pyStrip snap.translation →
      diff_existing_and_scraped existing [card] = ([card], ⟨0, 1, 0⟩)) := by
  constructor
  · rintro ⟨hp, ht⟩
    simp [diff_existing_and_scraped, h, hp, ht]
  · intro hne
    have hcond : pyStrip card.translation ≠ pyStrip snap.translation ∨
        pyStrip card.pinyin ≠ pyStrip snap.pinyin := hne.symm
    simp only [diff_existing_and_scraped, h]
    rw [if_pos hcond]

/-- C6 witness: against a snapshot `{pinyin := "nǐhǎo ", translation :=
"Hello"}` for `你好`, a card with pinyin `nǐhǎo` and translation
` Hello` is skipped, while a card with pinyin `nǐ hǎo` (internal space)
is an update. -/
theorem C6_witness :
    diff_existing_and_scraped oneExisting [cardTrimSame] = ([], ⟨0, 0, 1⟩) ∧
    diff_existing_and_scraped oneExisting [cardInnerSpace] =
      ([cardInnerSpace], ⟨0, 1, 0⟩) :=
  ⟨(C6_trim_insensitive_diff oneExisting cardTrimSame
      ⟨"nǐhǎo ", "Hello"⟩ (by decide)).1 (by decide),
   (C6_trim_insensitive_diff oneExisting cardInnerSpace
      ⟨"nǐhǎo ", "Hello"⟩ (by decide)).2 (by decide)⟩

/-- C7: two cards agreeing on hanzi, pinyin and translation receive the
same classification and the same diff counters against any existing
mapping, whatever their model, notes, structure, url and article title. -/
theorem C7_classification_independent (existing : ExistingCards)
    (c1 c2 : CardContent) (hh : c1.hanzi = c2.hanzi)
    (hp : c1.pinyin = c2.pinyin) (ht : c1.translation = c2.translation) :
    classify existing c1 = classify existing c2 ∧
    (diff_existing_and_scraped existing [c1]).2 =
      (diff_existing_and_scraped existing [c2]).2 := by
  have hc : classify existing c1 = classify existing c2 := by
    unfold classify
    rw [hh, hp, ht]
  refine ⟨hc, ?_⟩
  rw [diff_cons, diff_cons, hc]
  cases classify existing c2 <;> rfl

/-- C7 witness: `cardA` and `cardAOther` share hanzi/pinyin/translation
but differ in model, notes, structure, url and article title; their
classification and diff counters agree. -/
theorem C7_witness :
    classify oneExisting cardA = classify oneExisting cardAOther ∧
    (diff_existing_and_scraped oneExisting [cardA]).2 =
      (diff_existing_and_scraped oneExisting [cardAOther]).2 :=
  C7_classification_independent oneExisting cardA cardAOther rfl rfl rfl

/-- C8: a dialog-marked group yields exactly one record (hence at most
one), its kind is always `translation`, and each joined field lists the
per-line values in the source order of the `li` items (`filterMap` and
`map` preserve order). -/
theorem C8_dialog_single_ordered_translation (pin : PinyinFn)
    (url title : String) (g : ExampleGroup)
    (hd : "dialog" ∈ g.ulClasses) :
    (parseGroup pin url title g).1 =
      [{ model := .translation,
         hanzi := pyStrip (intercalateBr
           ((g.lis.filterMap dialogLine).map (fun l => l.1))),
         pinyin := intercalateBr (filterTruthy
           ((g.lis.filterMap dialogLine).map (fun l => l.2.1))),
         translation := intercalateBr (filterTruthy
           ((g.lis.filterMap dialogLine).map (fun l => l.2.2.1))),
         notes := intercalateBr (filterTruthy
           ((g.lis.filterMap dialogLine).map (fun l => l.2.2.2))),
         «structure» := g.jiegou.getD "", url := url,
         article_title := title }] := by
  obtain ⟨h1, h2, h3, h4⟩ := processDialogLis_eq_filterMap url g.lis
  simp [parseGroup, hd, h1, h2, h3, h4]

/-- C8 witness: the two-line dialog group yields one translation record
whose fields join the lines in source order. -/
theorem C8_witness :
    (parseGroup noPinyin "http://test.url" "Dialog Title" dialogGroup).1 =
      [{ model := .translation, hanzi := "A: 你好<br>B: 好",
         pinyin := "A: nǐ hǎo<br>B: hǎo",
         translation := "A: Hello<br>B: Hi", notes := "",
         «structure» := "Dialog Struct", url := "http://test.url",
         article_title := "Dialog Title" }] :=
  Eq.trans (C8_dialog_single_ordered_translation noPinyin "http://test.url"
    "Dialog Title" dialogGroup (by decide)) (by decide)

/-- C9: a dialog line with no speaker span contributes nothing to the
four accumulated fields — processing `pre ++ li :: post` accumulates
exactly what `pre ++ post` does — while a warning naming the page's url
is recorded in position; consequently the dialog group emits the same
cards with or without the malformed line. -/
theorem C9_missing_speaker_skips_one_line (pin : PinyinFn)
    (url title : String) (jiegou : Option String) (cls : List String)
    (pre post : List Li) (li : Li)
    (hd : "dialog" ∈ cls)
    (hs : (extractSpan "speaker" li.children).1 = none) :
    processDialogLis url (pre ++ li :: post) =
      { hs := (processDialogLis url (pre ++ post)).hs,
        ps := (processDialogLis url (pre ++ post)).ps,
        ts := (processDialogLis url (pre ++ post)).ts,
        es := (processDialogLis url (pre ++ post)).es,
        warns := (processDialogLis url pre).warns ++
          speakerWarning url :: (processDialogLis url post).warns } ∧
    (parseGroup pin url title ⟨jiegou, cls, pre ++ li :: post⟩).1 =
      (parseGroup pin url title ⟨jiegou, cls, pre ++ post⟩).1 := by
  have hnone := dialogLine_eq_none li hs
  have hstep : processDialogLis url (li :: post) =
      { processDialogLis url post with
        warns := speakerWarning url :: (processDialogLis url post).warns } := by
    simp [processDialogLis, hnone]
  have hacc : processDialogLis url (pre ++ li :: post) =
      { hs := (processDialogLis url (pre ++ post)).hs,
        ps := (processDialogLis url (pre ++ post)).ps,
        ts := (processDialogLis url (pre ++ post)).ts,
        es := (processDialogLis url (pre ++ post)).es,
        warns := (processDialogLis url pre).warns ++
          speakerWarning url :: (processDialogLis url post).warns } := by
    rw [processDialogLis_append url pre (li :: post), hstep,
      processDialogLis_append url pre post]
  refine ⟨hacc, ?_⟩
  simp [parseGroup, hd, hacc, processDialogLis_append url pre post]

/-- C9 witness: dropping the speaker-less middle line of a three-line
dialog leaves the two good lines' aggregation unchanged and records the
warning between their (empty) warning lists. -/
theorem C9_witness :
    processDialogLis "u" ([dialogLiA] ++ noSpeakerLi :: [dialogLiB]) =
      { hs := (processDialogLis "u" ([dialogLiA] ++ [dialogLiB])).hs,
        ps := (processDialogLis "u" ([dialogLiA] ++ [dialogLiB])).ps,
        ts := (processDialogLis "u" ([dialogLiA] ++ [dialogLiB])).ts,
        es := (processDialogLis "u" ([dialogLiA] ++ [dialogLiB])).es,
        warns := (processDialogLis "u" [dialogLiA]).warns ++
          speakerWarning "u" :: (processDialogLis "u" [dialogLiB]).warns } ∧
    (parseGroup noPinyin "u" "T"
        ⟨none, ["dialog"], [dialogLiA] ++ noSpeakerLi :: [dialogLiB]⟩).1 =
      (parseGroup noPinyin "u" "T"
        ⟨none, ["dialog"], [dialogLiA] ++ [dialogLiB]⟩).1 :=
  C9_missing_speaker_skips_one_line noPinyin "u" "T" none ["dialog"]
    [dialogLiA] [dialogLiB] noSpeakerLi (by decide) rfl

/-- C10: a standalone list item carrying both the `o` and the `x` marker
classes is classified as a valid example — the `o` branch is tested
first, so the correct marker wins. -/
theorem C10_o_marker_wins (pin : PinyinFn) (url title : String)
    (jiegou : Option String) (ulCls cs : List String)
    (children : List Node)
    (hnd : "dialog" ∉ ulCls) (ho : "o" ∈ cs) (_hx : "x" ∈ cs) :
    ((parseGroup pin url title ⟨jiegou, ulCls, [⟨cs, children⟩]⟩).1.map
        (fun c => c.model)) = [Model.validExample] := by
  simp [parseGroup, hnd, parseStandaloneLi, ho]

/-- C10 witness: an item with class list `["o", "x"]` in a non-dialog
group produces a `validExample` record. -/
theorem C10_witness :
    ((parseGroup noPinyin "u" "T"
        ⟨none, [], [bothMarksLi]⟩).1.map (fun c => c.model)) =
      [Model.validExample] :=
  C10_o_marker_wins noPinyin "u" "T" none [] ["o", "x"] [.text "好"]
    (by decide) (by decide) (by decide)

end CgwScraper
